import Mathlib

/-!
Verification of the Beebo voice-assistant controller (`beebo_prototype.py`).

The definitions below are a shallow embedding of the program: wall-clock
times (Python `time.time()` floats) are modelled as rationals, 16-bit PCM
samples as integers, Python strings as Lean `String`s, and the relevant
mutable attributes of the `BeeboPrototype` object as explicit state
structures threaded through pure functions.  Each function keeps the name
of the Python method it embeds.
-/

/-! ## Python-semantics helpers -/

/-- Python `int()` on a float/rational value: truncation toward zero.  This is
also what numpy's `astype(np.int16)` does to an in-range value. -/
def pyInt (q : ℚ) : ℤ := if 0 ≤ q then ⌊q⌋ else ⌈q⌉

theorem pyInt_intCast (k : ℤ) : pyInt (k : ℚ) = k := by
  unfold pyInt
  by_cases h : (0 : ℚ) ≤ (k : ℚ)
  · simp [h, Int.floor_intCast]
  · simp [h, Int.ceil_intCast]

theorem pyInt_of_nonneg {q : ℚ} (h : 0 ≤ q) : pyInt q = ⌊q⌋ := if_pos h

theorem pyInt_nonneg {q : ℚ} (h : 0 ≤ q) : 0 ≤ pyInt q := by
  rw [pyInt_of_nonneg h]
  exact Int.floor_nonneg.mpr h

theorem pyInt_le {q : ℚ} {n : ℤ} (hq : q ≤ (n : ℚ)) (hn : 0 ≤ n) : pyInt q ≤ n := by
  unfold pyInt
  by_cases h : 0 ≤ q
  · rw [if_pos h]
    calc ⌊q⌋ ≤ ⌊(n : ℚ)⌋ := Int.floor_le_floor hq
    _ = n := Int.floor_intCast n
  · rw [if_neg h]
    calc ⌈q⌉ ≤ ⌈(0 : ℚ)⌉ := Int.ceil_le_ceil (le_of_not_le h)
    _ = 0 := Int.ceil_zero
    _ ≤ n := hn

theorem le_pyInt {q : ℚ} {n : ℤ} (hq : (n : ℚ) ≤ q) (hn : n ≤ 0) : n ≤ pyInt q := by
  unfold pyInt
  by_cases h : 0 ≤ q
  · rw [if_pos h]
    calc n ≤ 0 := hn
    _ ≤ ⌊q⌋ := Int.floor_nonneg.mpr h
  · rw [if_neg h]
    calc n = ⌈(n : ℚ)⌉ := (Int.ceil_intCast n).symm
    _ ≤ ⌈q⌉ := Int.ceil_le_ceil hq

/-- Words of a character list: maximal runs of non-space characters, as
Python `str.split()` produces on space-separated text (empty runs dropped).
`acc` holds the reversed current run. -/
def splitWordsAux : List Char → List Char → List (List Char)
  | [], acc => if acc = [] then [] else [acc.reverse]
  | c :: cs, acc =>
      if c = ' ' then
        (if acc = [] then [] else [acc.reverse]) ++ splitWordsAux cs []
      else
        splitWordsAux cs (c :: acc)

/-- Word count of a transcript, `len(text.split())` in the source. -/
def wordCount (s : String) : Nat := (splitWordsAux s.toList []).length

/-- Whether `pat` is a prefix of `text` (character lists). -/
def startsWithChars : List Char → List Char → Bool
  | [], _ => true
  | _ :: _, [] => false
  | p :: ps, t :: ts => p = t && startsWithChars ps ts

/-- Python substring containment `pat in text` on character lists. -/
def hasSubChars : List Char → List Char → Bool
  | [], pat => startsWithChars pat []
  | c :: ts, pat => startsWithChars pat (c :: ts) || hasSubChars ts pat

/-- Python `str.strip()`: whitespace removed from both ends. -/
def pyStrip (s : String) : String :=
  String.mk (((s.toList.dropWhile Char.isWhitespace).reverse.dropWhile Char.isWhitespace).reverse)

/-- Truthiness of `s.strip()` in Python: some non-whitespace character
remains. -/
def stripNonempty (s : String) : Bool := s.toList.any (fun c => ! c.isWhitespace)

/-! ## System state and voice mode

`current_state` is one of the seven string constants used by the source;
`voice_mode` is one of `"off"`, `"wake_word"`, `"listening"`. -/

inductive SystemState where
  | SLEEPING | WAKING_UP | STANDBY | LISTENING | PROCESSING | SPEAKING | ERROR
deriving DecidableEq, Repr

inductive VoiceMode where
  | off | wake_word | listening
deriving DecidableEq, Repr

inductive SpeakingPhase where
  | transition_to_speak | speaking | transition_to_standby
deriving DecidableEq, Repr

/-- The mutable attributes of `BeeboPrototype` that the state-machine claims
read and write. -/
structure BeeboState where
  current_state : SystemState
  previous_state : SystemState
  voice_mode : VoiceMode
  wake_word_active : Bool
  should_listen_after_wake : Bool
  is_speaking : Bool
  speaking_phase : Option SpeakingPhase
  return_to_listening_after_speak : Bool
  last_activity_time : ℚ
deriving DecidableEq, Repr

/-- `set_voice_mode` (the thread-starting side effect is not part of the
state modelled here). -/
def set_voice_mode (s : BeeboState) (m : VoiceMode) : BeeboState :=
  { s with voice_mode := m }

/-- `stop_voice_system`: sets `voice_mode = "off"` (and destroys the Vosk
session, modelled separately by `destroy_vosk_session`). -/
def stop_voice_system (s : BeeboState) : BeeboState :=
  { s with voice_mode := VoiceMode.off }

/-- `set_state` (source lines 1117-1142): records the previous state, resets
the activity timer on WAKING_UP/LISTENING/SPEAKING, and manages the voice
mode per the new state.  `now` is `time.time()`. -/
def set_state (now : ℚ) (s : BeeboState) (new_state : SystemState) : BeeboState :=
  if new_state = s.current_state then s
  else
    let s1 : BeeboState :=
      { s with previous_state := s.current_state, current_state := new_state }
    let s2 : BeeboState :=
      if new_state = SystemState.WAKING_UP ∨ new_state = SystemState.LISTENING ∨
          new_state = SystemState.SPEAKING
      then { s1 with last_activity_time := now } else s1
    if new_state = SystemState.SLEEPING then
      if s2.wake_word_active = true then set_voice_mode s2 VoiceMode.wake_word
      else stop_voice_system s2
    else if new_state = SystemState.STANDBY ∧ s2.wake_word_active = true then
      set_voice_mode s2 VoiceMode.wake_word
    else if new_state = SystemState.LISTENING then
      set_voice_mode s2 VoiceMode.listening
    else if new_state = SystemState.PROCESSING ∨ new_state = SystemState.SPEAKING then
      set_voice_mode s2 VoiceMode.off
    else s2

/-- The write `self.voice_mode = "wake_word"` the voice worker performs
unconditionally after `_handle_speech_recognition` returns (`_voice_thread`,
source line 894). -/
def voice_worker_reset (s : BeeboState) : BeeboState :=
  { s with voice_mode := VoiceMode.wake_word }

/-- `_trigger_wake_response`: from SLEEPING it defers (sets the
listen-after-wake flag and posts `power_on` to the UI loop); from STANDBY it
writes `current_state` and `voice_mode` directly. -/
def trigger_wake_response (s : BeeboState) : BeeboState :=
  if s.current_state = SystemState.SLEEPING then
    { s with should_listen_after_wake := true }
  else if s.current_state = SystemState.STANDBY then
    { s with current_state := SystemState.LISTENING, voice_mode := VoiceMode.listening }
  else s

/-- The voice-mode invariant asserted by the specification (section 3):
OFF during PROCESSING/SPEAKING, LISTENING iff the state is LISTENING,
WAKE_WORD only in SLEEPING/STANDBY with wake-word detection enabled. -/
def voiceModeInv (s : BeeboState) : Prop :=
  (s.current_state = SystemState.PROCESSING ∨ s.current_state = SystemState.SPEAKING →
    s.voice_mode = VoiceMode.off) ∧
  (s.voice_mode = VoiceMode.listening ↔ s.current_state = SystemState.LISTENING) ∧
  (s.voice_mode = VoiceMode.wake_word →
    (s.current_state = SystemState.SLEEPING ∨ s.current_state = SystemState.STANDBY) ∧
      s.wake_word_active = true)

instance (s : BeeboState) : Decidable (voiceModeInv s) := by
  unfold voiceModeInv; infer_instance

/-! ## Wake-word cooldown (`_check_wake_word`) -/

/-- `self.wake_word_cooldown` from `__init__`. -/
def wake_word_cooldown : ℚ := 2

/-- `_check_wake_word` (source lines 949-967): returns whether the detection
is accepted together with the updated `wake_word_detected_time`.  `text`
and `wake_word` are already lowercased by the caller. -/
def check_wake_word (wake_word text : List Char) (cooldown last_detected now : ℚ) :
    Bool × ℚ :=
  if hasSubChars text wake_word then
    if now - last_detected < cooldown then (false, last_detected)
    else (true, now)
  else (false, last_detected)

/-! ## Audio-session teardown (`destroy_vosk_session`) -/

/-- The audio-session attributes: `audio_stream` and `vosk_rec`, each either
a live handle (numbered) or `None`. -/
structure VoskSession where
  audio_stream : Option ℕ
  vosk_rec : Option ℕ
deriving DecidableEq, Repr

/-- PyAudio calls the teardown performs on the live stream. -/
inductive AudioAction where
  | stop_stream (h : ℕ)
  | close_stream (h : ℕ)
deriving DecidableEq, Repr

/-- `destroy_vosk_session` (source lines 816-827): stops and closes the
stream only when one is present, clears the stream reference, and always
clears the recognizer.  Returns the new session state and the PyAudio calls
made. -/
def destroy_vosk_session (s : VoskSession) : VoskSession × List AudioAction :=
  match s.audio_stream with
  | some h =>
      ({ audio_stream := none, vosk_rec := none },
        [AudioAction.stop_stream h, AudioAction.close_stream h])
  | none => ({ audio_stream := none, vosk_rec := none }, [])

/-! ## Speaking entry points (`speak`, `speak_and_return_to_listening`) -/

/-- `speak` (source lines 1346-1358): guarded by `is_speaking`; the Bool
reports whether a TTS thread was started. -/
def speak (now : ℚ) (s : BeeboState) : BeeboState × Bool :=
  if s.is_speaking = true then (s, false)
  else
    let s1 : BeeboState :=
      { s with is_speaking := true,
               speaking_phase := some SpeakingPhase.transition_to_speak,
               return_to_listening_after_speak := false }
    (set_state now s1 SystemState.SPEAKING, true)

/-- `speak_and_return_to_listening` (source lines 1494-1506): as `speak` but
setting the return-to-listening flag. -/
def speak_and_return_to_listening (now : ℚ) (s : BeeboState) : BeeboState × Bool :=
  if s.is_speaking = true then (s, false)
  else
    let s1 : BeeboState :=
      { s with is_speaking := true,
               speaking_phase := some SpeakingPhase.transition_to_speak,
               return_to_listening_after_speak := true }
    (set_state now s1 SystemState.SPEAKING, true)

/-! ## Listening session (endpointer) -/

/-- The speech-recognition attributes reset at the top of
`_handle_speech_recognition`. -/
structure ListenState where
  current_input_text : String
  last_word_time : ℚ
  listening_start_time : ℚ
  has_detected_speech : Bool
  word_timeout : ℚ
  initial_timeout : ℚ
deriving DecidableEq, Repr

/-- The state `_handle_speech_recognition` installs on entry at time `t0`,
with the timeout defaults from `__init__` (`word_timeout = 1.0`,
`initial_timeout = 5.0`). -/
def initial_listen_state (t0 : ℚ) : ListenState :=
  { current_input_text := ""
    last_word_time := t0
    listening_start_time := t0
    has_detected_speech := false
    word_timeout := 1
    initial_timeout := 5 }

/-- `_process_partial_speech` (source lines 1043-1057): marks speech
detected and overwrites the accumulated text exactly when the partial's
word count strictly exceeds the accumulated word count. -/
def process_partial_speech (st : ListenState) (partial_text : String)
    (current_time : ℚ) : ListenState :=
  if partial_text ≠ "" then
    let st1 : ListenState := { st with has_detected_speech := true }
    if wordCount st.current_input_text < wordCount partial_text then
      { st1 with current_input_text := partial_text, last_word_time := current_time }
    else st1
  else st

/-- How a listening session can end. -/
inductive SpeechEnd where
  | submitted (text : String)
  | abandoned
deriving DecidableEq, Repr

/-- The state `set_state` is asked for when the session ends: submission
goes to PROCESSING, abandonment to STANDBY (source lines 1073-1094). -/
def speech_end_state : SpeechEnd → SystemState
  | SpeechEnd.submitted _ => SystemState.PROCESSING
  | SpeechEnd.abandoned => SystemState.STANDBY

/-- `_check_speech_timeouts` (source lines 1073-1094): before any speech,
the initial timeout abandons the session; after speech, the word timeout
submits the accumulated text when it is non-blank and abandons otherwise.
`none` means the loop continues. -/
def check_speech_timeouts (st : ListenState) (current_time : ℚ) : Option SpeechEnd :=
  if st.has_detected_speech = false then
    if st.initial_timeout < current_time - st.listening_start_time then
      some SpeechEnd.abandoned
    else none
  else
    if st.word_timeout < current_time - st.last_word_time then
      if stripNonempty st.current_input_text then
        some (SpeechEnd.submitted st.current_input_text)
      else some SpeechEnd.abandoned
    else none

/-- One pass of the `while self.current_state == "LISTENING"` loop body of
`_handle_speech_recognition`, abstracted over its observable input: the
tick's wall time and the partial transcript Vosk produced (if any); the
partial is processed first, then the timeouts are checked, exactly as in
the source.  The loop ends at the first tick whose timeout check fires. -/
def listen_loop : List (ℚ × Option String) → ListenState → Option SpeechEnd
  | [], _ => none
  | (t, ev) :: rest, st =>
      let st2 := match ev with
        | some p => process_partial_speech st p t
        | none => st
      match check_speech_timeouts st2 t with
      | some e => some e
      | none => listen_loop rest st2

/-! ## Software gain (`apply_software_gain`) -/

/-- numpy `np.clip(q, lo, hi)` on one value. -/
def npClip (q lo hi : ℚ) : ℚ := max lo (min q hi)

/-- One sample of `apply_software_gain` (source lines 829-846): scale by the
gain multiplier, clip into the legal int16 range, convert back to int16
(`astype(np.int16)` truncates toward zero). -/
def apply_gain_sample (gain_multiplier : ℚ) (s : ℤ) : ℤ :=
  pyInt (npClip ((s : ℚ) * gain_multiplier) (-32768) 32767)

/-- `apply_software_gain` over a frame of decoded int16 samples. -/
def apply_software_gain (audio_data : List ℤ) (gain_multiplier : ℚ) : List ℤ :=
  audio_data.map (apply_gain_sample gain_multiplier)

/-! ## Playback-to-animation synchronizer -/

/-- Python list indexing `xs[i]` (negative indices count from the end);
`none` when the index is out of range. -/
def pyGet (xs : List ℚ) (i : ℤ) : Option ℚ :=
  if 0 ≤ i then xs.get? i.toNat
  else if 0 ≤ (xs.length : ℤ) + i then xs.get? ((xs.length : ℤ) + i).toNat
  else none

/-- Python slicing `xs[i:]` (negative start counts from the end, clamped). -/
def pySliceFrom (xs : List ℚ) (i : ℤ) : List ℚ :=
  xs.drop (if 0 ≤ i then i.toNat else ((xs.length : ℤ) + i).toNat)

/-- `start_color_animation_delayed` (source lines 590-617): skips
`int(elapsed / 0.05)` leading 50 ms segments of the volume timeline, where
`elapsed = now - tts_start_time`; returns the adjusted timeline, or `none`
when the audio is almost done and only the static speaking face is shown. -/
def start_color_animation_delayed (tts_start_time now : ℚ) (volume_timeline : List ℚ) :
    Option (List ℚ) :=
  let skip_segments := pyInt ((now - tts_start_time) / (5 / 100))
  if skip_segments < (volume_timeline.length : ℤ) then
    some (pySliceFrom volume_timeline skip_segments)
  else none

/-- `update_speaking_colors` (source lines 1545-1575), the per-tick sample
selection: the sample at `int((now - color_start_time) / 0.05)`, or `none`
when the timeline has finished and the color animation stops. -/
def update_speaking_colors (color_start_time now : ℚ) (volume_timeline : List ℚ) :
    Option ℚ :=
  let segment_index := pyInt ((now - color_start_time) / (5 / 100))
  if segment_index < (volume_timeline.length : ℤ) then pyGet volume_timeline segment_index
  else none

/-- `apply_volume_color` (source lines 1605-1638), the per-channel linear
interpolation between the base color RGB(99,155,255) and the peak color
RGB(95,205,220): `int(base + (peak - base) * volume_level)` per channel. -/
def apply_volume_color (volume_level : ℚ) : ℤ × ℤ × ℤ :=
  (pyInt (99 + (95 - 99) * volume_level),
   pyInt (155 + (205 - 155) * volume_level),
   pyInt (255 + (220 - 255) * volume_level))

/-! ## Conversation context and the response pipeline -/

inductive Role where
  | user | bot
deriving DecidableEq, Repr

structure CtxEntry where
  timestamp : String
  role : Role
  content : String
deriving DecidableEq, Repr

/-- `self.max_context_history` from `__init__`. -/
def max_context_history : ℕ := 15

/-- `add_to_context` (source lines 1711-1723): append the entry; when the
memory exceeds the bound, drop the oldest entry. -/
def add_to_context (context_memory : List CtxEntry) (content : String) (role : Role)
    (timestamp : String) : List CtxEntry :=
  let ctx := context_memory ++ [{ timestamp := timestamp, role := role, content := content }]
  if max_context_history < ctx.length then ctx.drop 1 else ctx

/-- What the user hears at the end of `_process_ai_background`. -/
inductive SpokenReply where
  | api_key_missing
  | reply (text : String)
  | apology
deriving DecidableEq, Repr

/-- `_process_ai_background` (source lines 1230-1284): with a configured API
key, the stripped message (summarized when over 20 words) is appended to
the context as a user entry BEFORE the OpenAI call; on success the reply is
spoken and its summary appended as a bot entry; when the call raises
(`api_result = none`), the generic apology is spoken instead.  The external
summarizers are abstracted as `summary_of` / `bot_summary_of`. -/
def process_ai_background (context_memory : List CtxEntry) (text timestamp : String)
    (has_api_key : Bool) (summary_of bot_summary_of : String → String)
    (api_result : Option String) : List CtxEntry × Option SpokenReply :=
  if has_api_key = false then (context_memory, some SpokenReply.api_key_missing)
  else
    let cleaned_message := pyStrip text
    let user_content :=
      if 20 < wordCount cleaned_message then summary_of cleaned_message else cleaned_message
    let ctx1 := add_to_context context_memory user_content Role.user timestamp
    match api_result with
    | some bot_response =>
        (add_to_context ctx1 (bot_summary_of bot_response) Role.bot timestamp,
          some (SpokenReply.reply bot_response))
    | none => (ctx1, some SpokenReply.apology)

/-! ## C1: wake-word cooldown -/

/-- C1: a wake detection is accepted iff the text contains the wake phrase
and at least `cooldown` has elapsed since the last accepted detection;
acceptance updates the recorded detection time to `now` in the same
decision, so a second detection less than `cooldown` after an accepted one
is suppressed (returns `false` and leaves the recorded time unchanged). -/
theorem c1_wake_cooldown (wake_word t1 t2 : List Char) (cd last0 n1 n2 : ℚ)
    (h1 : hasSubChars t1 wake_word = true)
    (hacc : cd ≤ n1 - last0)
    (hsoon : n2 - n1 < cd) :
    check_wake_word wake_word t1 cd last0 n1 = (true, n1) ∧
    (check_wake_word wake_word t2 cd n1 n2).1 = false ∧
    (check_wake_word wake_word t2 cd n1 n2).2 = n1 ∧
    (∀ t last now, (check_wake_word wake_word t cd last now).1 = true ↔
      (hasSubChars t wake_word = true ∧ cd ≤ now - last)) ∧
    (∀ t last now, (check_wake_word wake_word t cd last now).1 = true →
      (check_wake_word wake_word t cd last now).2 = now) := by
  have hacc' : ¬ (n1 - last0 < cd) := not_lt.mpr hacc
  refine ⟨?_, ?_, ?_, ?_, ?_⟩
  · simp [check_wake_word, h1, hacc']
  · by_cases h2 : hasSubChars t2 wake_word = true
    · simp [check_wake_word, h2, hsoon]
    · simp [check_wake_word, h2]
  · by_cases h2 : hasSubChars t2 wake_word = true
    · simp [check_wake_word, h2, hsoon]
    · simp [check_wake_word, h2]
  · intro t last now
    by_cases hs : hasSubChars t wake_word = true
    · by_cases hlt : now - last < cd
      · simp [check_wake_word, hs, hlt, not_le.mpr hlt]
      · simp [check_wake_word, hs, hlt, not_lt.mp hlt]
    · simp [check_wake_word, hs]
  · intro t last now htr
    by_cases hs : hasSubChars t wake_word = true
    · by_cases hlt : now - last < cd
      · simp [check_wake_word, hs, hlt] at htr
      · simp [check_wake_word, hs, hlt]
    · simp [check_wake_word, hs] at htr

/-- Witness for C1 at the configured wake phrase and cooldown: detections at
times 10 and 11 with `last_trigger_time = 0`; the second falls inside the
2-second cooldown window. -/
theorem c1_wake_cooldown_witness :
    check_wake_word ("beebo".toList) ("hey beebo".toList) wake_word_cooldown 0 10 = (true, 10) ∧
    (check_wake_word ("beebo".toList) ("beebo again".toList) wake_word_cooldown 10 11).1 = false ∧
    (check_wake_word ("beebo".toList) ("beebo again".toList) wake_word_cooldown 10 11).2 = 10 ∧
    (∀ t last now,
      (check_wake_word ("beebo".toList) t wake_word_cooldown last now).1 = true ↔
      (hasSubChars t ("beebo".toList) = true ∧ wake_word_cooldown ≤ now - last)) ∧
    (∀ t last now,
      (check_wake_word ("beebo".toList) t wake_word_cooldown last now).1 = true →
      (check_wake_word ("beebo".toList) t wake_word_cooldown last now).2 = now) :=
  c1_wake_cooldown ("beebo".toList) ("hey beebo".toList) ("beebo again".toList)
    wake_word_cooldown 0 10 11 (by decide)
    (by norm_num [wake_word_cooldown]) (by norm_num [wake_word_cooldown])

/-! ## C9: idempotent audio-session teardown -/

/-- C9: `destroy_vosk_session` is idempotent: a second call on the
already-destroyed session changes nothing and performs no PyAudio calls
(it observes the cleared stream reference), and after any call both the
stream handle and the recognizer reference are cleared. -/
theorem c9_teardown_idempotent (s : VoskSession) :
    destroy_vosk_session (destroy_vosk_session s).1 = ((destroy_vosk_session s).1, []) ∧
    (destroy_vosk_session s).1.audio_stream = none ∧
    (destroy_vosk_session s).1.vosk_rec = none := by
  cases s with
  | mk stream rec =>
    cases stream <;> simp [destroy_vosk_session]

/-! ## C10: no double-triggered speech -/

/-- C10: while `is_speaking` is set, both `speak` and
`speak_and_return_to_listening` are no-ops: the state is returned unchanged
(in every field) and no TTS thread is started. -/
theorem c10_speak_noop (now : ℚ) (s : BeeboState) (h : s.is_speaking = true) :
    speak now s = (s, false) ∧ speak_and_return_to_listening now s = (s, false) := by
  constructor
  · simp [speak, h]
  · simp [speak_and_return_to_listening, h]

/-- Sample state with a speech in progress, for the C10 witness. -/
def speakingSampleState : BeeboState :=
  { current_state := SystemState.SPEAKING
    previous_state := SystemState.PROCESSING
    voice_mode := VoiceMode.off
    wake_word_active := true
    should_listen_after_wake := false
    is_speaking := true
    speaking_phase := some SpeakingPhase.speaking
    return_to_listening_after_speak := false
    last_activity_time := 0 }

/-- Witness for C10 at a concrete speaking state. -/
theorem c10_speak_noop_witness :
    speak 0 speakingSampleState = (speakingSampleState, false) ∧
    speak_and_return_to_listening 0 speakingSampleState = (speakingSampleState, false) :=
  c10_speak_noop 0 speakingSampleState rfl

/-! ## C2: the voice-mode invariant -/

/-- A reachable configuration right after an utterance is submitted from a
manually started listening session (wake-word detection disabled): the UI
loop has run `set_state("PROCESSING")`, which set `voice_mode = "off"`. -/
def processingOffState : BeeboState :=
  { current_state := SystemState.PROCESSING
    previous_state := SystemState.LISTENING
    voice_mode := VoiceMode.off
    wake_word_active := false
    should_listen_after_wake := false
    is_speaking := false
    speaking_phase := none
    return_to_listening_after_speak := false
    last_activity_time := 0 }

/-- C2 counterexample: the voice worker's post-recognition reset
(`self.voice_mode = "wake_word"`, `_voice_thread` line 894) breaks the
claimed invariant: applied to a state satisfying it (PROCESSING with voice
mode off and wake-word detection disabled), it yields
`voice_mode = wake_word` while the state is PROCESSING and wake-word
detection is disabled. -/
theorem c2_voice_mode_counterexample :
    voiceModeInv processingOffState ∧
    ¬ voiceModeInv (voice_worker_reset processingOffState) := by
  constructor
  · refine ⟨fun _ => rfl, ?_, ?_⟩
    · constructor
      · intro h; exact absurd h (by decide)
      · intro h; exact absurd h (by decide)
    · intro h; exact absurd h (by decide)
  · intro h
    have := h.2.2 rfl
    exact absurd this.2 (by decide)

/-- C2 (amended): after every `set_state` call that changes the state, the
voice mode agrees with the new state: off for PROCESSING/SPEAKING,
listening for LISTENING, wake_word for SLEEPING/STANDBY with wake-word
detection enabled, off for SLEEPING with it disabled; the direct
wake-trigger path from STANDBY also installs the LISTENING/listening pair.
The invariant does NOT hold over every write of `voice_mode`: the voice
worker's post-recognition reset sets `voice_mode = wake_word`
unconditionally, regardless of the current state and of whether wake-word
detection is enabled (see `c2_voice_mode_counterexample`). -/
theorem c2_set_state_voice_mode (now : ℚ) (s : BeeboState) (ns : SystemState)
    (h : ¬ ns = s.current_state) :
    (set_state now s ns).current_state = ns ∧
    ((ns = SystemState.PROCESSING ∨ ns = SystemState.SPEAKING) →
      (set_state now s ns).voice_mode = VoiceMode.off) ∧
    (ns = SystemState.LISTENING → (set_state now s ns).voice_mode = VoiceMode.listening) ∧
    ((ns = SystemState.SLEEPING ∨ ns = SystemState.STANDBY) → s.wake_word_active = true →
      (set_state now s ns).voice_mode = VoiceMode.wake_word) ∧
    (ns = SystemState.SLEEPING → s.wake_word_active = false →
      (set_state now s ns).voice_mode = VoiceMode.off) ∧
    (∀ s' : BeeboState, s'.current_state = SystemState.STANDBY →
      (trigger_wake_response s').current_state = SystemState.LISTENING ∧
      (trigger_wake_response s').voice_mode = VoiceMode.listening) ∧
    (∀ s' : BeeboState, (voice_worker_reset s').voice_mode = VoiceMode.wake_word) := by
  refine ⟨?_, ?_, ?_, ?_, ?_, ?_, ?_⟩
  · cases ns <;>
      by_cases hw : s.wake_word_active = true <;>
        simp [set_state, h, hw, set_voice_mode, stop_voice_system]
  · rintro (rfl | rfl) <;> simp [set_state, h, set_voice_mode]
  · rintro rfl; simp [set_state, h, set_voice_mode]
  · rintro (rfl | rfl) hw <;> simp [set_state, h, hw, set_voice_mode]
  · rintro rfl hw
    simp [set_state, h, hw, set_voice_mode, stop_voice_system]
  · intro s' hs'
    constructor <;> simp [trigger_wake_response, hs']
  · intro s'
    rfl

/-- Witness for C2's amended statement: transition out of STANDBY into
PROCESSING with wake-word detection enabled. -/
theorem c2_set_state_voice_mode_witness :
    (set_state 0 { processingOffState with
        current_state := SystemState.STANDBY, wake_word_active := true }
      SystemState.PROCESSING).current_state = SystemState.PROCESSING ∧
    ((SystemState.PROCESSING = SystemState.PROCESSING ∨
        SystemState.PROCESSING = SystemState.SPEAKING) →
      (set_state 0 { processingOffState with
          current_state := SystemState.STANDBY, wake_word_active := true }
        SystemState.PROCESSING).voice_mode = VoiceMode.off) ∧
    (SystemState.PROCESSING = SystemState.LISTENING →
      (set_state 0 { processingOffState with
          current_state := SystemState.STANDBY, wake_word_active := true }
        SystemState.PROCESSING).voice_mode = VoiceMode.listening) ∧
    ((SystemState.PROCESSING = SystemState.SLEEPING ∨
        SystemState.PROCESSING = SystemState.STANDBY) →
      ({ processingOffState with
          current_state := SystemState.STANDBY,
          wake_word_active := true } : BeeboState).wake_word_active = true →
      (set_state 0 { processingOffState with
          current_state := SystemState.STANDBY, wake_word_active := true }
        SystemState.PROCESSING).voice_mode = VoiceMode.wake_word) ∧
    (SystemState.PROCESSING = SystemState.SLEEPING →
      ({ processingOffState with
          current_state := SystemState.STANDBY,
          wake_word_active := true } : BeeboState).wake_word_active = false →
      (set_state 0 { processingOffState with
          current_state := SystemState.STANDBY, wake_word_active := true }
        SystemState.PROCESSING).voice_mode = VoiceMode.off) ∧
    (∀ s' : BeeboState, s'.current_state = SystemState.STANDBY →
      (trigger_wake_response s').current_state = SystemState.LISTENING ∧
      (trigger_wake_response s').voice_mode = VoiceMode.listening) ∧
    (∀ s' : BeeboState, (voice_worker_reset s').voice_mode = VoiceMode.wake_word) :=
  c2_set_state_voice_mode 0
    { processingOffState with
        current_state := SystemState.STANDBY, wake_word_active := true }
    SystemState.PROCESSING (by decide)

/-! ## C4: software gain saturates into the int16 range -/

/-- C4: for a nonnegative gain multiplier, every output sample of
`apply_software_gain` lies in the legal 16-bit range (no modular
wraparound); a sample whose scaled value already lies in the range is not
altered by the clip (the output is exactly the truncated scaled value, and
exactly the scaled value itself whenever that value is a representable
integer); and the frame is processed sample by sample. -/
theorem c4_gain_saturation (gain_multiplier : ℚ) (audio_data : List ℤ)
    (hg : 0 ≤ gain_multiplier) :
    (∀ y ∈ apply_software_gain audio_data gain_multiplier, -32768 ≤ y ∧ y ≤ 32767) ∧
    (∀ s : ℤ, -32768 ≤ (s : ℚ) * gain_multiplier → (s : ℚ) * gain_multiplier ≤ 32767 →
      apply_gain_sample gain_multiplier s = pyInt ((s : ℚ) * gain_multiplier)) ∧
    (∀ s k : ℤ, (s : ℚ) * gain_multiplier = (k : ℚ) → -32768 ≤ k → k ≤ 32767 →
      apply_gain_sample gain_multiplier s = k) ∧
    apply_software_gain audio_data gain_multiplier =
      audio_data.map (apply_gain_sample gain_multiplier) := by
  refine ⟨?_, ?_, ?_, rfl⟩
  · intro y hy
    rw [apply_software_gain, List.mem_map] at hy
    obtain ⟨s, -, rfl⟩ := hy
    unfold apply_gain_sample npClip
    constructor
    · apply le_pyInt
      · push_cast
        exact le_max_left _ _
      · norm_num
    · apply pyInt_le
      · push_cast
        exact max_le (by norm_num) (min_le_right _ _)
      · norm_num
  · intro s hlo hhi
    unfold apply_gain_sample npClip
    rw [min_eq_left hhi, max_eq_right hlo]
  · intro s k hk hlo hhi
    unfold apply_gain_sample npClip
    rw [hk, min_eq_left (by exact_mod_cast hhi), max_eq_right (by exact_mod_cast hlo)]
    exact pyInt_intCast k

/-- Witness for C4 at gain 2 on a frame with an in-range and two clipping
samples. -/
theorem c4_gain_saturation_witness :
    (∀ y ∈ apply_software_gain [100, 30000, -30000] 2, -32768 ≤ y ∧ y ≤ 32767) ∧
    (∀ s : ℤ, -32768 ≤ (s : ℚ) * 2 → (s : ℚ) * 2 ≤ 32767 →
      apply_gain_sample 2 s = pyInt ((s : ℚ) * 2)) ∧
    (∀ s k : ℤ, (s : ℚ) * 2 = (k : ℚ) → -32768 ≤ k → k ≤ 32767 →
      apply_gain_sample 2 s = k) ∧
    apply_software_gain [100, 30000, -30000] 2 =
      List.map (apply_gain_sample 2) [100, 30000, -30000] :=
  c4_gain_saturation 2 [100, 30000, -30000] (by norm_num)

/-! ## C6: volume-to-color interpolation -/

/-- C6: for volume samples in [0,1], each interpolated channel of
`apply_volume_color` lies between its base and peak values inclusive
(red in [95,99], green in [155,205], blue in [220,255]); the green channel
is non-decreasing and the red and blue channels non-increasing in the
volume; volume 0 yields the base color RGB(99,155,255) and volume 1 the
peak color RGB(95,205,220). -/
theorem c6_volume_color (u v : ℚ) (hu0 : 0 ≤ u) (huv : u ≤ v) (hv1 : v ≤ 1) :
    (95 ≤ (apply_volume_color v).1 ∧ (apply_volume_color v).1 ≤ 99) ∧
    (155 ≤ (apply_volume_color v).2.1 ∧ (apply_volume_color v).2.1 ≤ 205) ∧
    (220 ≤ (apply_volume_color v).2.2 ∧ (apply_volume_color v).2.2 ≤ 255) ∧
    (apply_volume_color u).2.1 ≤ (apply_volume_color v).2.1 ∧
    (apply_volume_color v).1 ≤ (apply_volume_color u).1 ∧
    (apply_volume_color v).2.2 ≤ (apply_volume_color u).2.2 ∧
    apply_volume_color 0 = (99, 155, 255) ∧
    apply_volume_color 1 = (95, 205, 220) := by
  have hv0 : 0 ≤ v := le_trans hu0 huv
  have hu1 : u ≤ 1 := le_trans huv hv1
  have hrv : (0 : ℚ) ≤ 99 + (95 - 99) * v := by nlinarith
  have hru : (0 : ℚ) ≤ 99 + (95 - 99) * u := by nlinarith
  have hgv : (0 : ℚ) ≤ 155 + (205 - 155) * v := by nlinarith
  have hgu : (0 : ℚ) ≤ 155 + (205 - 155) * u := by nlinarith
  have hbv : (0 : ℚ) ≤ 255 + (220 - 255) * v := by nlinarith
  have hbu : (0 : ℚ) ≤ 255 + (220 - 255) * u := by nlinarith
  unfold apply_volume_color
  refine ⟨⟨?_, ?_⟩, ⟨?_, ?_⟩, ⟨?_, ?_⟩, ?_, ?_, ?_, ?_, ?_⟩
  · rw [pyInt_of_nonneg hrv]
    exact Int.le_floor.mpr (by push_cast; nlinarith)
  · rw [pyInt_of_nonneg hrv]
    have : (99 : ℤ) = ⌊(99 : ℚ)⌋ := by norm_num
    rw [this]
    exact Int.floor_le_floor (by nlinarith)
  · rw [pyInt_of_nonneg hgv]
    exact Int.le_floor.mpr (by push_cast; nlinarith)
  · rw [pyInt_of_nonneg hgv]
    have : (205 : ℤ) = ⌊(205 : ℚ)⌋ := by norm_num
    rw [this]
    exact Int.floor_le_floor (by nlinarith)
  · rw [pyInt_of_nonneg hbv]
    exact Int.le_floor.mpr (by push_cast; nlinarith)
  · rw [pyInt_of_nonneg hbv]
    have : (255 : ℤ) = ⌊(255 : ℚ)⌋ := by norm_num
    rw [this]
    exact Int.floor_le_floor (by nlinarith)
  · rw [pyInt_of_nonneg hgu, pyInt_of_nonneg hgv]
    exact Int.floor_le_floor (by nlinarith)
  · rw [pyInt_of_nonneg hru, pyInt_of_nonneg hrv]
    exact Int.floor_le_floor (by nlinarith)
  · rw [pyInt_of_nonneg hbu, pyInt_of_nonneg hbv]
    exact Int.floor_le_floor (by nlinarith)
  · have e1 : (99 : ℚ) + (95 - 99) * 0 = ((99 : ℤ) : ℚ) := by norm_num
    have e2 : (155 : ℚ) + (205 - 155) * 0 = ((155 : ℤ) : ℚ) := by norm_num
    have e3 : (255 : ℚ) + (220 - 255) * 0 = ((255 : ℤ) : ℚ) := by norm_num
    rw [e1, e2, e3, pyInt_intCast, pyInt_intCast, pyInt_intCast]
  · have e1 : (99 : ℚ) + (95 - 99) * 1 = ((95 : ℤ) : ℚ) := by norm_num
    have e2 : (155 : ℚ) + (205 - 155) * 1 = ((205 : ℤ) : ℚ) := by norm_num
    have e3 : (255 : ℚ) + (220 - 255) * 1 = ((220 : ℤ) : ℚ) := by norm_num
    rw [e1, e2, e3, pyInt_intCast, pyInt_intCast, pyInt_intCast]

/-- Witness for C6 at volumes 0 and 1/2. -/
theorem c6_volume_color_witness :
    (95 ≤ (apply_volume_color (1/2)).1 ∧ (apply_volume_color (1/2)).1 ≤ 99) ∧
    (155 ≤ (apply_volume_color (1/2)).2.1 ∧ (apply_volume_color (1/2)).2.1 ≤ 205) ∧
    (220 ≤ (apply_volume_color (1/2)).2.2 ∧ (apply_volume_color (1/2)).2.2 ≤ 255) ∧
    (apply_volume_color 0).2.1 ≤ (apply_volume_color (1/2)).2.1 ∧
    (apply_volume_color (1/2)).1 ≤ (apply_volume_color 0).1 ∧
    (apply_volume_color (1/2)).2.2 ≤ (apply_volume_color 0).2.2 ∧
    apply_volume_color 0 = (99, 155, 255) ∧
    apply_volume_color 1 = (95, 205, 220) :=
  c6_volume_color 0 (1/2) (by norm_num) (by norm_num) (by norm_num)

/-! ## C3: partial-transcript accumulation -/

/-- A mid-session listening state whose accumulated text is `"turn on"`. -/
def tie_listen_state : ListenState :=
  { current_input_text := "turn on", last_word_time := 0, listening_start_time := 0,
    has_detected_speech := true, word_timeout := 1, initial_timeout := 5 }

/-- C3 counterexample: there is no longer-text tie-break.  The partial
`"turned on"` has the same word count as the accumulated `"turn on"` and is
strictly longer, yet `_process_partial_speech` leaves the accumulated text
and `last_word_time` unchanged (the source compares word counts with a
strict `>` only). -/
theorem c3_no_tie_break_counterexample :
    wordCount ("turned on") = wordCount ("turn on") ∧
    ("turn on" : String).length < ("turned on" : String).length ∧
    (process_partial_speech tie_listen_state ("turned on") 1).current_input_text =
      ("turn on" : String) ∧
    (process_partial_speech tie_listen_state ("turned on") 1).last_word_time = 0 := by
  refine ⟨by decide, by decide, by decide, by decide⟩

/-- C3 (amended): while listening, a partial overwrites the accumulated
text and refreshes `last_word_time` exactly when its word count strictly
exceeds the accumulated word count; a partial with the same or fewer words
never overwrites, regardless of its length (there is no tie-break).  The
partials "turn", "turn on", "turn on the" followed by silence longer than
`word_timeout` still submit "turn on the", which is handed over in the
PROCESSING state. -/
theorem c3_partial_word_count (st : ListenState) (p : String) (t : ℚ) (hp : p ≠ "")
    (t0 t1 t2 t3 t4 : ℚ) (hgap : 1 < t4 - t3) :
    (wordCount st.current_input_text < wordCount p →
      process_partial_speech st p t =
        { st with has_detected_speech := true, current_input_text := p,
                  last_word_time := t }) ∧
    (wordCount p ≤ wordCount st.current_input_text →
      process_partial_speech st p t = { st with has_detected_speech := true }) ∧
    listen_loop
        [(t1, some ("turn")), (t2, some ("turn on")), (t3, some ("turn on the")), (t4, none)]
        (initial_listen_state t0) = some (SpeechEnd.submitted ("turn on the")) ∧
    speech_end_state (SpeechEnd.submitted ("turn on the")) = SystemState.PROCESSING := by
  refine ⟨?_, ?_, ?_, rfl⟩
  · intro hlt
    simp [process_partial_speech, hp, hlt]
  · intro hle
    simp [process_partial_speech, hp, not_lt.mpr hle]
  · have w1 : wordCount "" < wordCount ("turn") := by decide
    have w2 : wordCount ("turn") < wordCount ("turn on") := by decide
    have w3 : wordCount ("turn on") < wordCount ("turn on the") := by decide
    have hs : stripNonempty ("turn on the") = true := by decide
    have h10 : ¬ (1 : ℚ) < 0 := by norm_num
    simp [listen_loop, process_partial_speech, check_speech_timeouts, initial_listen_state,
      w1, w2, w3, hs, hgap, h10]

/-- Witness for C3's amended statement: a three-word partial overwriting the
two-word accumulated text, and scenario B at concrete times 0,1,2,3 with
the final silent tick at 5. -/
theorem c3_partial_word_count_witness :
    (wordCount tie_listen_state.current_input_text < wordCount ("turn on the") →
      process_partial_speech tie_listen_state ("turn on the") 2 =
        { tie_listen_state with has_detected_speech := true,
                                current_input_text := ("turn on the"),
                                last_word_time := 2 }) ∧
    (wordCount ("turn on the") ≤ wordCount tie_listen_state.current_input_text →
      process_partial_speech tie_listen_state ("turn on the") 2 =
        { tie_listen_state with has_detected_speech := true }) ∧
    listen_loop
        [(1, some ("turn")), (2, some ("turn on")), (3, some ("turn on the")), (5, none)]
        (initial_listen_state 0) = some (SpeechEnd.submitted ("turn on the")) ∧
    speech_end_state (SpeechEnd.submitted ("turn on the")) = SystemState.PROCESSING :=
  c3_partial_word_count tie_listen_state ("turn on the") 2 (by decide)
    0 1 2 3 5 (by norm_num)

/-! ## C8: initial listening timeout -/

/-- C8: in a listening session with no partial transcripts at all, the
first tick past `initial_timeout` (5 s) after the session start ends the
loop with abandonment — so whenever some tick lies past the timeout the
loop returns `abandoned`, while a trace entirely within the timeout is
still listening — and an abandoned session never submits an utterance and
moves the system to STANDBY. -/
theorem c8_initial_timeout (t0 : ℚ) (ticks : List (ℚ × Option String))
    (hnone : ∀ p ∈ ticks, p.2 = (none : Option String)) :
    ((∃ p ∈ ticks, 5 < p.1 - t0) →
      listen_loop ticks (initial_listen_state t0) = some SpeechEnd.abandoned) ∧
    ((∀ p ∈ ticks, p.1 - t0 ≤ 5) →
      listen_loop ticks (initial_listen_state t0) = none) ∧
    (∀ s, listen_loop ticks (initial_listen_state t0) ≠ some (SpeechEnd.submitted s)) ∧
    speech_end_state SpeechEnd.abandoned = SystemState.STANDBY := by
  induction ticks with
  | nil => exact ⟨by simp, fun _ => rfl, by simp [listen_loop], rfl⟩
  | cons hd tl ih =>
    obtain ⟨t, ev⟩ := hd
    have hev : ev = none := hnone (t, ev) (List.mem_cons_self _ _)
    subst hev
    have hnone' : ∀ p ∈ tl, p.2 = (none : Option String) :=
      fun p hp => hnone p (List.mem_cons_of_mem _ hp)
    obtain ⟨ih1, ih2, ih3, -⟩ := ih hnone'
    have step : listen_loop ((t, none) :: tl) (initial_listen_state t0) =
        if 5 < t - t0 then some SpeechEnd.abandoned
        else listen_loop tl (initial_listen_state t0) := by
      by_cases hto : 5 < t - t0 <;>
        simp [listen_loop, check_speech_timeouts, initial_listen_state, hto]
    by_cases hto : 5 < t - t0
    · rw [step, if_pos hto]
      refine ⟨fun _ => rfl, ?_, by simp, rfl⟩
      intro hall
      exact absurd hto (not_lt.mpr (hall (t, none) (List.mem_cons_self _ _)))
    · rw [step, if_neg hto]
      refine ⟨?_, ?_, ih3, rfl⟩
      · rintro ⟨p, hp, hpt⟩
        rcases List.mem_cons.mp hp with h | h
        · subst h; exact absurd hpt hto
        · exact ih1 ⟨p, h, hpt⟩
      · intro hall
        exact ih2 fun p hp => hall p (List.mem_cons_of_mem _ hp)

/-- Witness for C8: a single silent tick at time 6 of a session started at
time 0 (one second past the 5-second initial timeout). -/
theorem c8_initial_timeout_witness :
    ((∃ p ∈ [((6 : ℚ), (none : Option String))], 5 < p.1 - 0) →
      listen_loop [((6 : ℚ), (none : Option String))] (initial_listen_state 0) =
        some SpeechEnd.abandoned) ∧
    ((∀ p ∈ [((6 : ℚ), (none : Option String))], p.1 - 0 ≤ 5) →
      listen_loop [((6 : ℚ), (none : Option String))] (initial_listen_state 0) = none) ∧
    (∀ s, listen_loop [((6 : ℚ), (none : Option String))] (initial_listen_state 0) ≠
      some (SpeechEnd.submitted s)) ∧
    speech_end_state SpeechEnd.abandoned = SystemState.STANDBY :=
  c8_initial_timeout 0 [((6 : ℚ), (none : Option String))] (by simp)

/-! ## C5: playback-to-animation synchronization -/

/-- C5: starting the color animation skips `floor(elapsed_before_start /
50ms)` leading envelope samples, and each later tick selects the sample at
`floor((now - start) / 50ms)` of the adjusted envelope — overall the sample
at the skip-advanced index of the original envelope, with `none` (the
static speaking visual / stopped synchronization) exactly once the index
reaches the envelope length.  In particular a tick at t = 120 ms over the
envelope [0, 0.5, 1] with no start latency selects index 2 (value 1),
whose interpolated color is the peak RGB(95,205,220). -/
theorem c5_playback_sync (volume_timeline : List ℚ) (tts_start color_start now : ℚ)
    (h1 : tts_start ≤ color_start) (h2 : color_start ≤ now) :
    (∀ adj, start_color_animation_delayed tts_start color_start volume_timeline = some adj →
      update_speaking_colors color_start now adj =
        volume_timeline.get?
          ((pyInt ((color_start - tts_start) / (5 / 100))).toNat +
            (pyInt ((now - color_start) / (5 / 100))).toNat)) ∧
    (start_color_animation_delayed tts_start color_start volume_timeline = none ↔
      (volume_timeline.length : ℤ) ≤ pyInt ((color_start - tts_start) / (5 / 100))) ∧
    ((volume_timeline.length : ℤ) ≤ pyInt ((now - color_start) / (5 / 100)) →
      update_speaking_colors color_start now volume_timeline = none) ∧
    update_speaking_colors 0 (12 / 100) [0, 1/2, 1] = some 1 ∧
    apply_volume_color 1 = (95, 205, 220) := by
  have hk0 : 0 ≤ pyInt ((color_start - tts_start) / (5 / 100)) :=
    pyInt_nonneg (div_nonneg (by linarith) (by norm_num))
  have hi0 : 0 ≤ pyInt ((now - color_start) / (5 / 100)) :=
    pyInt_nonneg (div_nonneg (by linarith) (by norm_num))
  set k := pyInt ((color_start - tts_start) / (5 / 100)) with hkdef
  set i := pyInt ((now - color_start) / (5 / 100)) with hidef
  refine ⟨?_, ?_, ?_, ?_, ?_⟩
  · intro adj hadj
    unfold start_color_animation_delayed at hadj
    rw [← hkdef] at hadj
    by_cases hklen : k < (volume_timeline.length : ℤ)
    · rw [if_pos hklen] at hadj
      have hadj' : adj = volume_timeline.drop k.toNat := by
        have := hadj.symm
        injection this with h
        rw [h, pySliceFrom, if_pos hk0]
      subst hadj'
      have hlen : (volume_timeline.drop k.toNat).length = volume_timeline.length - k.toNat :=
        List.length_drop _ _
      have hkn : (k.toNat : ℤ) = k := Int.toNat_of_nonneg hk0
      have hin : (i.toNat : ℤ) = i := Int.toNat_of_nonneg hi0
      have hknat : k.toNat < volume_timeline.length := by
        rw [← hkn] at hklen; exact_mod_cast hklen
      unfold update_speaking_colors
      rw [← hidef]
      by_cases hilen : i < ((volume_timeline.drop k.toNat).length : ℤ)
      · rw [if_pos hilen, pyGet, if_pos hi0]
        exact List.get?_drop _ _ _
      · rw [if_neg hilen]
        have hige : (volume_timeline.drop k.toNat).length ≤ i.toNat := by
          rw [not_lt] at hilen
          rw [← hin] at hilen
          exact_mod_cast hilen
        rw [hlen] at hige
        symm
        rw [List.get?_eq_none]
        omega
    · rw [if_neg hklen] at hadj
      exact absurd hadj (by simp)
  · unfold start_color_animation_delayed
    rw [← hkdef]
    by_cases hklen : k < (volume_timeline.length : ℤ)
    · rw [if_pos hklen]
      simp [not_le.mpr hklen]
    · rw [if_neg hklen]
      simp [not_lt.mp hklen]
  · intro h
    unfold update_speaking_colors
    rw [← hidef, if_neg (not_lt.mpr h)]
  · have harg : ((12 : ℚ) / 100 - 0) / (5 / 100) = 12 / 5 := by norm_num
    have hfl : pyInt ((12 : ℚ) / 5) = 2 := by
      rw [pyInt_of_nonneg (by norm_num)]
      rw [Int.floor_eq_iff]
      constructor <;> norm_num
    unfold update_speaking_colors
    rw [harg, hfl]
    norm_num [pyGet]
    rfl
  · have e1 : (99 : ℚ) + (95 - 99) * 1 = ((95 : ℤ) : ℚ) := by norm_num
    have e2 : (155 : ℚ) + (205 - 155) * 1 = ((205 : ℤ) : ℚ) := by norm_num
    have e3 : (255 : ℚ) + (220 - 255) * 1 = ((220 : ℤ) : ℚ) := by norm_num
    unfold apply_volume_color
    rw [e1, e2, e3, pyInt_intCast, pyInt_intCast, pyInt_intCast]

/-- Witness for C5: the scenario-D envelope with playback starting exactly
at synthesis completion (all reference times 0) and the tick at 120 ms. -/
theorem c5_playback_sync_witness :
    (∀ adj, start_color_animation_delayed 0 0 [0, 1/2, 1] = some adj →
      update_speaking_colors 0 (12 / 100) adj =
        [0, 1/2, 1].get?
          ((pyInt (((0 : ℚ) - 0) / (5 / 100))).toNat +
            (pyInt (((12 : ℚ) / 100 - 0) / (5 / 100))).toNat)) ∧
    (start_color_animation_delayed 0 0 [0, 1/2, 1] = none ↔
      (([0, 1/2, 1] : List ℚ).length : ℤ) ≤ pyInt (((0 : ℚ) - 0) / (5 / 100))) ∧
    ((([0, 1/2, 1] : List ℚ).length : ℤ) ≤ pyInt (((12 : ℚ) / 100 - 0) / (5 / 100)) →
      update_speaking_colors 0 (12 / 100) [0, 1/2, 1] = none) ∧
    update_speaking_colors 0 (12 / 100) [0, 1/2, 1] = some 1 ∧
    apply_volume_color 1 = (95, 205, 220) :=
  c5_playback_sync [0, 1/2, 1] 0 0 (12 / 100) (by norm_num) (by norm_num)

/-! ## C7: failed response-pipeline call -/

/-- C7 counterexample: a failing pipeline call does NOT leave the
conversation context unmodified.  Starting from an empty context, the
message `"hello"` is appended as a user entry before the OpenAI call, so
after the failure the context differs from the pre-request context (while
the apology is spoken). -/
theorem c7_context_counterexample :
    (process_ai_background [] ("hello") ("t") true (fun s => s) (fun s => s) none).1 ≠
      ([] : List CtxEntry) ∧
    (process_ai_background [] ("hello") ("t") true (fun s => s) (fun s => s) none).2 =
      some SpokenReply.apology := by
  constructor
  · decide
  · decide

/-- C7 (amended): when the pipeline call fails, the generic apology is the
spoken reply and no bot entry is added; but the user's message (or its
summary, when over 20 words) has already been appended to the context
before the request, so the post-error context is the pre-request context
plus exactly that one user entry (within capacity). -/
theorem c7_pipeline_error (context_memory : List CtxEntry) (text timestamp : String)
    (summary_of bot_summary_of : String → String)
    (hcap : context_memory.length < max_context_history) :
    (process_ai_background context_memory text timestamp true
        summary_of bot_summary_of none).2 = some SpokenReply.apology ∧
    (process_ai_background context_memory text timestamp true
        summary_of bot_summary_of none).1 =
      context_memory ++
        [{ timestamp := timestamp, role := Role.user,
           content := if 20 < wordCount (pyStrip text) then summary_of (pyStrip text)
                      else pyStrip text }] ∧
    (∀ e ∈ (process_ai_background context_memory text timestamp true
        summary_of bot_summary_of none).1, e.role = Role.bot → e ∈ context_memory) := by
  have hlen : ¬ max_context_history < context_memory.length + 1 := by
    unfold max_context_history at hcap ⊢
    omega
  have hmain : (process_ai_background context_memory text timestamp true
      summary_of bot_summary_of none).1 =
      context_memory ++
        [{ timestamp := timestamp, role := Role.user,
           content := if 20 < wordCount (pyStrip text) then summary_of (pyStrip text)
                      else pyStrip text }] := by
    simp [process_ai_background, add_to_context, hlen]
  refine ⟨?_, hmain, ?_⟩
  · simp [process_ai_background]
  · intro e he hrole
    rw [hmain] at he
    rcases List.mem_append.mp he with h | h
    · exact h
    · rw [List.mem_singleton] at h
      subst h
      simp at hrole

/-- Witness for C7's amended statement: empty pre-request context, message
`"hello"`, identity summarizers. -/
theorem c7_pipeline_error_witness :
    (process_ai_background [] ("hello") ("t") true
        (fun s => s) (fun s => s) none).2 = some SpokenReply.apology ∧
    (process_ai_background [] ("hello") ("t") true
        (fun s => s) (fun s => s) none).1 =
      [] ++
        [{ timestamp := ("t"), role := Role.user,
           content := if 20 < wordCount (pyStrip ("hello")) then (fun s => s) (pyStrip ("hello"))
                      else pyStrip ("hello") }] ∧
    (∀ e ∈ (process_ai_background [] ("hello") ("t") true
        (fun s => s) (fun s => s) none).1, e.role = Role.bot → e ∈ ([] : List CtxEntry)) :=
  c7_pipeline_error [] ("hello") ("t") (fun s => s) (fun s => s) (by decide)
